/-
Verification of the LLM-Practice helpdesk streaming pipeline.

The development shallowly embeds the pure/observable parts of the Python
sources:
  * `str.format`-style template rendering (Task2.py / Task4_chat.py /
    Task5_chat.py, the `rendered = [...]` comprehension inside `chat`),
  * Python `int()` parsing as used by `input_router` (Task3.py /
    Task5_chat.py),
  * the route table `ROUTES` and the dispatch in `online_help_desk_chat`
    (Task3.py / Task5_chat.py),
  * the SSE request handler `chat_handler` (Task4_server.py).

The external model (Ollama) is out of scope; its streamed output appears as
an explicit parameter: a list of fragments, optionally followed by a raised
exception.  Python exceptions are modelled with `Except PyErr`.
-/
import Mathlib

set_option maxHeartbeats 1000000

/-- Kinds of Python exceptions that the embedded code can raise.
`unsupported` is not a Python exception: it marks format-string features
(conversion `!`, format specs `:`, attribute/index access `.`/`[`) that this
model deliberately refuses to interpret; no theorem below asserts anything
about inputs that reach it. -/
inductive PyErr where
  | keyError (k : String)
  | valueError
  | typeError
  | attrError
  | indexError
  | unsupported
  deriving DecidableEq, Repr

/-- JSON values, as produced by `json.loads` / consumed by `json.dumps`
(object member order preserved, as in Python dicts). -/
inductive Json where
  | null
  | bool (b : Bool)
  | num (n : Int)
  | str (s : String)
  | arr (elems : List Json)
  | obj (fields : List (String × Json))

deriving instance DecidableEq for Except

/-- `Except` success test. -/
def isOkE {α : Type} : Except PyErr α → Bool
  | Except.ok _ => true
  | Except.error _ => false

/-! ## Python `str.format` (the template renderer)

`content.format(**input_data)` scans the string left to right:
`\x7b\x7b` and `\x7d\x7d` are escapes for literal braces, `\x7bname\x7d`
is a replacement field looked up in the keyword arguments, a lone `\x7d`
or an unterminated `\x7b` raises `ValueError`, an empty or all-digit
field name refers to positional arguments (none are passed, so
`IndexError`), and a missing keyword raises `KeyError`.  Errors surface
in scan order, exactly as in CPython. -/

/-- Resolve one replacement field (the text between `\x7b` and `\x7d`). -/
def fmtField (vars : List (String × String)) (field : List Char) : Except PyErr String :=
  if field.contains '{' then Except.error PyErr.valueError
  else if field.any (fun c => c == ':' || c == '!' || c == '.' || c == '[') then
    Except.error PyErr.unsupported
  else if field.all Char.isDigit then Except.error PyErr.indexError
  else
    match List.lookup (String.mk field) vars with
    | some v => Except.ok v
    | none => Except.error (PyErr.keyError (String.mk field))

/-- The `str.format` scanner.  `mode = none` scans literal text;
`mode = some acc` is inside a replacement field with `acc` holding the
field characters in reverse. -/
def fmtScan (vars : List (String × String)) : Option (List Char) → List Char → Except PyErr (List Char)
  | none, [] => Except.ok []
  | some _, [] => Except.error PyErr.valueError
  | none, '{' :: '{' :: rest => (fmtScan vars none rest).map (fun t => '{' :: t)
  | none, '}' :: '}' :: rest => (fmtScan vars none rest).map (fun t => '}' :: t)
  | none, '{' :: rest => fmtScan vars (some []) rest
  | none, '}' :: _ => Except.error PyErr.valueError
  | none, c :: rest => (fmtScan vars none rest).map (fun t => c :: t)
  | some acc, '}' :: rest =>
    match fmtField vars acc.reverse with
    | Except.ok v => (fmtScan vars none rest).map (fun t => v.data ++ t)
    | Except.error e => Except.error e
  | some acc, c :: rest => fmtScan vars (some (c :: acc)) rest

/-- `s.format(**vars)` for a Python string `s`. -/
def pyFormat (s : String) (vars : List (String × String)) : Except PyErr String :=
  (fmtScan vars none s.data).map String.mk

/-- The field-name analysis of a template: `some names` lists the
replacement-field names in scan order when the template is well formed and
every field is a plain keyword name; `none` when the template is malformed
or uses a feature outside this model (`fmtField` would not perform a plain
keyword lookup on it). -/
def fieldScan : Option (List Char) → List Char → Option (List String)
  | none, [] => some []
  | some _, [] => none
  | none, '{' :: '{' :: rest => fieldScan none rest
  | none, '}' :: '}' :: rest => fieldScan none rest
  | none, '{' :: rest => fieldScan (some []) rest
  | none, '}' :: _ => none
  | none, _ :: rest => fieldScan none rest
  | some acc, '}' :: rest =>
    if !(acc.reverse.contains '{')
        && !(acc.reverse.any (fun c => c == ':' || c == '!' || c == '.' || c == '[') )
        && !(acc.reverse.all Char.isDigit) then
      (fieldScan none rest).map (fun fs => String.mk acc.reverse :: fs)
    else none
  | some acc, c :: rest => fieldScan (some (c :: acc)) rest

/-- The placeholder names of a template, when it is well formed. -/
def placeholders (s : String) : Option (List String) := fieldScan none s.data

/-- The rendering comprehension inside `chat`:
`[(role, content.format(**input_data)) for role, content in messages]`,
evaluated left to right, first exception propagating. -/
def render : List (String × String) → List (String × String) → Except PyErr (List (String × String))
  | [], _ => Except.ok []
  | m :: rest, vars =>
    match pyFormat m.2 vars with
    | Except.error e => Except.error e
    | Except.ok c =>
      match render rest vars with
      | Except.error e => Except.error e
      | Except.ok out => Except.ok ((m.1, c) :: out)

/-- A string with no brace characters (such content passes `format`
untouched). -/
def noBraces (s : String) : Bool := s.data.all (fun c => !(c == '{') && !(c == '}'))

/-! ## Python `int()` as used by `input_router` -/

/-- Digits after the first one, allowing single underscores between digits
(CPython underscore rule). -/
def digitsCore : Nat → List Char → Option Nat
  | acc, [] => some acc
  | acc, '_' :: rest =>
    match rest with
    | [] => none
    | c :: rest' =>
      if c.isDigit then digitsCore (10 * acc + (c.toNat - 48)) rest' else none
  | acc, c :: rest =>
    if c.isDigit then digitsCore (10 * acc + (c.toNat - 48)) rest else none

/-- A nonempty digit run with optional grouping underscores. -/
def parseDigits : List Char → Option Nat
  | [] => none
  | c :: rest => if c.isDigit then digitsCore (c.toNat - 48) rest else none

/-- Python `int(s)`: strip whitespace, optional sign, base-10 digits.
(Unicode digits are out of scope; the sources only ever feed it model
output expected to be an ASCII digit.) -/
def pyInt (s : String) : Except PyErr Int :=
  let t := ((s.data.dropWhile Char.isWhitespace).reverse.dropWhile Char.isWhitespace).reverse
  match t with
  | '+' :: rest =>
    match parseDigits rest with
    | some n => Except.ok (n : Int)
    | none => Except.error PyErr.valueError
  | '-' :: rest =>
    match parseDigits rest with
    | some n => Except.ok (-(n : Int))
    | none => Except.error PyErr.valueError
  | rest =>
    match parseDigits rest with
    | some n => Except.ok (n : Int)
    | none => Except.error PyErr.valueError

/-! ## Dialogue assembly

`Task4_chat.online_help_desk_chat` and `Task5_chat.chitchat` build
`messages = [system_prompt] + history + [("user", "\x7bquestion\x7d")]`
and call `chat(messages, \x7b"question": question\x7d)`, whose first step is
the rendering comprehension embedded as `render`. -/

namespace Task4

/-- The fixed system turn of `Task4_chat.online_help_desk_chat`. -/
def system_prompt : String × String :=
  ("system",
   "You are a helpful assistant. Answer in Traditional Chinese (Taiwanese usage). If you don\x27t know the answer, say \x27不知道\x27.")

/-- The prompt set that `online_help_desk_chat` hands to the model, after
`chat`'s rendering step: system turn, then the caller's history, then the
`\x7bquestion\x7d` user turn, all rendered with `question`. -/
def online_help_desk_chat_messages (question : String) (history : List (String × String)) :
    Except PyErr (List (String × String)) :=
  render (system_prompt :: history ++ [("user", "\x7bquestion\x7d")]) [("question", question)]

end Task4

namespace Task5

/-- The fixed system turn of `Task5_chat.chitchat` (same text as Task4). -/
def system_prompt : String × String :=
  ("system",
   "You are a helpful assistant. Answer in Traditional Chinese (Taiwanese usage). If you don\x27t know the answer, say \x27不知道\x27.")

/-- The prompt set that `chitchat` hands to the model, after `chat`'s
rendering step. -/
def chitchat_messages (question : String) (history : List (String × String)) :
    Except PyErr (List (String × String)) :=
  render (system_prompt :: history ++ [("user", "\x7bquestion\x7d")]) [("question", question)]

end Task5

/-! ## Intent routing and dispatch (Task3.py, Task5_chat.py) -/

/-- The route table `ROUTES` (identical constant dict in Task3.py and
Task5_chat.py); `none` models a `KeyError` on subscript. -/
def ROUTES : Int → Option String := fun r =>
  if r = 1 then some "Food Ordering"
  else if r = 2 then some "Product Query"
  else if r = 3 then some "Event Query"
  else if r = 4 then some "Shop Query"
  else if r = 5 then some "Product Recommendation"
  else if r = 6 then some "Corporate Information"
  else if r = 7 then some "Others"
  else none

/-- `input_router` (identical in Task3.py and Task5_chat.py): drain the
classification stream into `chunks`, concatenate, and `int(...)` the text.
The model's streamed fragments are the explicit argument. -/
def input_router (chunks : List String) : Except PyErr Int :=
  pyInt (String.join chunks)

/-- A generator run: the fragments it yielded, then optionally the
exception that ended it. -/
abbrev GenRun := List String × Option PyErr

namespace Task3

/-- The branch of `Task3.online_help_desk_chat` after the route is known:
any route other than 5 yields the single rejection string built from the
f-string `"No response: \x7broute\x7d - \x7bROUTES[route]\x7d"` (a `KeyError`
there raises before anything is yielded); route 5 streams the
`recommend_food` output. -/
def dispatch (route : Int) (recommend : GenRun) : GenRun :=
  if route ≠ 5 then
    match ROUTES route with
    | some label => (["No response: " ++ toString route ++ " - " ++ label], none)
    | none => ([], some (PyErr.keyError (toString route)))
  else recommend

/-- `Task3.online_help_desk_chat`: classify, then dispatch.  `routerChunks`
is the drained model output of the classification call; `recommend` is the
streamed `recommend_food` output. -/
def online_help_desk_chat (routerChunks : List String) (recommend : GenRun) : GenRun :=
  match input_router routerChunks with
  | Except.ok route => dispatch route recommend
  | Except.error e => ([], some e)

end Task3

namespace Task5

/-- The branch of `Task5_chat.online_help_desk_chat` after the route is
known: any route other than 7 yields the single rejection string; route 7
streams the `chitchat` output. -/
def dispatch (route : Int) (chit : GenRun) : GenRun :=
  if route ≠ 7 then
    match ROUTES route with
    | some label => (["No response: " ++ toString route ++ " - " ++ label], none)
    | none => ([], some (PyErr.keyError (toString route)))
  else chit

/-- `Task5_chat.online_help_desk_chat`: classify, then dispatch. -/
def online_help_desk_chat (routerChunks : List String) (chit : GenRun) : GenRun :=
  match input_router routerChunks with
  | Except.ok route => dispatch route chit
  | Except.error e => ([], some e)

end Task5

/-! ## SSE transport (Task4_server.py) -/

/-- One Server-Sent Event as written by `sse_event(response, event, data)`. -/
structure SseEvent where
  event : String
  data : Json

/-- The `data`-named event for one fragment:
payload `\x7baction: "response", message: fragment\x7d`. -/
def dataEvent (frag : String) : SseEvent :=
  ⟨"data", Json.obj [("action", Json.str "response"), ("message", Json.str frag)]⟩

/-- The `error`-named event for a mid-stream failure:
payload `\x7baction: "error", message: str(e)\x7d`. -/
def errorEvent (msg : String) : SseEvent :=
  ⟨"error", Json.obj [("action", Json.str "error"), ("message", Json.str msg)]⟩

/-- The terminal `end` event with empty payload. -/
def endEvent : SseEvent := ⟨"end", Json.obj []⟩

/-- The streaming phase of `chat_handler`, after `response.prepare`: one
`data` event per fragment in production order; if the generator raised, one
`error` event; then always the single terminal `end` event.  The generator
run is `(fragments yielded, optional exception message)`. -/
def streamingEvents : List String × Option String → List SseEvent
  | (frags, none) => frags.map dataEvent ++ [endEvent]
  | (frags, some m) => frags.map dataEvent ++ [errorEvent m, endEvent]

/-- Result of one `/chat` request: either the pre-stream failure path
(`web.json_response(\x7b"error": str(e)\x7d, status=500)`), or the prepared
SSE stream (status 200, `text/event-stream`) with its events. -/
inductive HandlerResult where
  | jsonError (status : Nat) (contentType : String) (body : Json)
  | sse (status : Nat) (contentType : String) (events : List SseEvent)

/-- The SSE frames actually written to the connection. -/
def sseEventsOf : HandlerResult → List SseEvent
  | HandlerResult.sse _ _ evs => evs
  | HandlerResult.jsonError _ _ _ => []

/-- `str(e)` for the modelled exceptions (approximate message text; the
claims only require *some* message string). -/
def errMsg : PyErr → String
  | PyErr.keyError k => "KeyError: " ++ k
  | PyErr.valueError => "ValueError"
  | PyErr.typeError => "TypeError"
  | PyErr.attrError => "AttributeError"
  | PyErr.indexError => "IndexError"
  | PyErr.unsupported => "UnsupportedFormatFeature"

/-- Python `d.get(k, default)`: requires a dict (`AttributeError` otherwise,
e.g. when the JSON body is a list or scalar). -/
def pyGet (j : Json) (k : String) (dflt : Json) : Except PyErr Json :=
  match j with
  | Json.obj fields => Except.ok ((List.lookup k fields).getD dflt)
  | _ => Except.error PyErr.attrError

/-- Python `x[k]` subscription with a string key: dict lookup (`KeyError`
when absent), `TypeError` on any non-dict. -/
def pySubscr (j : Json) (k : String) : Except PyErr Json :=
  match j with
  | Json.obj fields =>
    match List.lookup k fields with
    | some v => Except.ok v
    | none => Except.error (PyErr.keyError k)
  | _ => Except.error PyErr.typeError

/-- Python `for item in x`: lists iterate elements, strings iterate
1-character strings, dicts iterate keys, everything else raises
`TypeError`. -/
def pyIter (j : Json) : Except PyErr (List Json) :=
  match j with
  | Json.arr xs => Except.ok xs
  | Json.str s => Except.ok (s.data.map fun c => Json.str (String.mk [c]))
  | Json.obj fields => Except.ok (fields.map fun f => Json.str f.1)
  | _ => Except.error PyErr.typeError

/-- The comprehension
`[(item["role"], item["content"]) for item in history]`, evaluated left to
right with the first exception propagating. -/
def formatHistory : List Json → Except PyErr (List (Json × Json))
  | [] => Except.ok []
  | it :: rest =>
    match pySubscr it "role" with
    | Except.error e => Except.error e
    | Except.ok r =>
      match pySubscr it "content" with
      | Except.error e => Except.error e
      | Except.ok c =>
        match formatHistory rest with
        | Except.error e => Except.error e
        | Except.ok out => Except.ok ((r, c) :: out)

/-- Is a history entry a dict carrying both `"role"` and `"content"`? -/
def goodItem (it : Json) : Bool :=
  isOkE (pySubscr it "role") && isOkE (pySubscr it "content")

/-- `chat_handler` (Task4_server.py).  `body` is the outcome of
`await request.json()` (an exception for a malformed body); `gen` is the
run of the `online_help_desk_chat` generator (fragments plus optional
mid-stream exception text).  Any exception before `response.prepare`
lands in the outer `except` and becomes the HTTP 500 JSON error; once
prepared, the streaming phase is `streamingEvents`. -/
def chat_handler (body : Except PyErr Json) (gen : List String × Option String) : HandlerResult :=
  match body with
  | Except.error e =>
    HandlerResult.jsonError 500 "application/json" (Json.obj [("error", Json.str (errMsg e))])
  | Except.ok b =>
    match pyGet b "query" (Json.str "") with
    | Except.error e =>
      HandlerResult.jsonError 500 "application/json" (Json.obj [("error", Json.str (errMsg e))])
    | Except.ok _question =>
      match pyGet b "history" (Json.arr []) with
      | Except.error e =>
        HandlerResult.jsonError 500 "application/json" (Json.obj [("error", Json.str (errMsg e))])
      | Except.ok history =>
        match pyIter history with
        | Except.error e =>
          HandlerResult.jsonError 500 "application/json" (Json.obj [("error", Json.str (errMsg e))])
        | Except.ok items =>
          match formatHistory items with
          | Except.error e =>
            HandlerResult.jsonError 500 "application/json" (Json.obj [("error", Json.str (errMsg e))])
          | Except.ok _formatted =>
            HandlerResult.sse 200 "text/event-stream" (streamingEvents gen)

/-! ## Rendering lemmas -/

theorem strMk_data (s : String) : String.mk s.data = s := rfl

theorem fmtScan_noBraces (vars : List (String × String)) :
    ∀ l : List Char, l.all (fun c => !(c == '{') && !(c == '}')) = true →
    fmtScan vars none l = Except.ok l := by
  intro l h
  induction l with
  | nil => rfl
  | cons c rest ih =>
    rw [List.all_cons, Bool.and_eq_true, Bool.and_eq_true] at h
    obtain ⟨⟨h1, h2⟩, h3⟩ := h
    rw [Bool.not_eq_true', beq_eq_false_iff_ne] at h1 h2
    rw [fmtScan.eq_def]
    split <;> simp_all [Except.map]

theorem pyFormat_noBraces (s : String) (vars : List (String × String))
    (h : noBraces s = true) : pyFormat s vars = Except.ok s := by
  unfold pyFormat
  rw [fmtScan_noBraces vars s.data h]
  rfl

theorem render_noBraces (vars : List (String × String)) :
    ∀ ps : List (String × String), (∀ m ∈ ps, noBraces m.2 = true) →
    render ps vars = Except.ok ps := by
  intro ps h
  induction ps with
  | nil => rfl
  | cons m rest ih =>
    rw [render]
    rw [pyFormat_noBraces m.2 vars (h m (List.mem_cons_self m rest))]
    rw [ih (fun x hx => h x (List.mem_cons_of_mem m hx))]

/-! Reduction lemmas for the two scanners on the overlapping match cases. -/

theorem fieldScan_openBrace (rest : List Char) (h : ∀ r, rest ≠ '{' :: r) :
    fieldScan none ('{' :: rest) = fieldScan (some []) rest := by
  rw [fieldScan.eq_def]; split <;> simp_all [eq_comm]

theorem fmtScan_openBrace (vars : List (String × String)) (rest : List Char)
    (h : ∀ r, rest ≠ '{' :: r) :
    fmtScan vars none ('{' :: rest) = fmtScan vars (some []) rest := by
  rw [fmtScan.eq_def]; split <;> simp_all [eq_comm]

theorem fieldScan_closeBrace (tail : List Char) (h : ∀ r, tail ≠ '}' :: r) :
    fieldScan none ('}' :: tail) = none := by
  rw [fieldScan.eq_def]; split <;> simp_all [eq_comm]

theorem fieldScan_char (c : Char) (rest : List Char) (h1 : c ≠ '{') (h2 : c ≠ '}') :
    fieldScan none (c :: rest) = fieldScan none rest := by
  rw [fieldScan.eq_def]; split <;> simp_all

theorem fmtScan_char (vars : List (String × String)) (c : Char) (rest : List Char)
    (h1 : c ≠ '{') (h2 : c ≠ '}') :
    fmtScan vars none (c :: rest) = (fmtScan vars none rest).map (fun t => c :: t) := by
  rw [fmtScan.eq_def]; split <;> simp_all

theorem fieldScan_fieldChar (acc : List Char) (c : Char) (rest : List Char) (h : c ≠ '}') :
    fieldScan (some acc) (c :: rest) = fieldScan (some (c :: acc)) rest := by
  rw [fieldScan.eq_def]; split <;> simp_all

theorem fmtScan_fieldChar (vars : List (String × String)) (acc : List Char) (c : Char)
    (rest : List Char) (h : c ≠ '}') :
    fmtScan vars (some acc) (c :: rest) = fmtScan vars (some (c :: acc)) rest := by
  rw [fmtScan.eq_def]; split <;> simp_all

/-- When the field passes `fieldScan`'s well-formedness guard, `fmtField` is a
plain keyword lookup. -/
theorem fmtField_of_guard (vars : List (String × String)) (field : List Char)
    (h1 : field.contains '{' = false)
    (h2 : (field.any fun c => c == ':' || c == '!' || c == '.' || c == '[') = false)
    (h3 : field.all Char.isDigit = false) :
    fmtField vars field =
      match List.lookup (String.mk field) vars with
      | some v => Except.ok v
      | none => Except.error (PyErr.keyError (String.mk field)) := by
  unfold fmtField
  rw [h1, h2, h3]
  rfl

/-- Lockstep correspondence: on a template whose `fieldScan` analysis
succeeds with field list `fs`, the format scanner (a) succeeds when every
field is covered by `vars`, (b) can only fail with a `KeyError` on an
uncovered field, and (c) succeeds only when every field is covered. -/
theorem fieldScan_fmtScan (vars : List (String × String)) (mode : Option (List Char)) (l : List Char) :
    ∀ fs : List String, fieldScan mode l = some fs →
      ((∀ k ∈ fs, (List.lookup k vars).isSome = true) → ∃ t, fmtScan vars mode l = Except.ok t)
      ∧ (∀ e, fmtScan vars mode l = Except.error e →
          ∃ k, k ∈ fs ∧ e = PyErr.keyError k ∧ List.lookup k vars = none)
      ∧ (∀ t, fmtScan vars mode l = Except.ok t → ∀ k ∈ fs, (List.lookup k vars).isSome = true) := by
  induction mode, l using fieldScan.induct with
  | case1 =>
    intro fs hfs
    simp only [fieldScan, Option.some.injEq] at hfs
    subst hfs
    refine ⟨fun _ => ⟨[], rfl⟩, fun e he => by simp [fmtScan] at he, fun t _ k hk => by simp at hk⟩
  | case2 val =>
    intro fs hfs
    simp [fieldScan] at hfs
  | case3 rest ih =>
    intro fs hfs
    simp only [fieldScan] at hfs
    obtain ⟨ihA, ihB, ihC⟩ := ih fs hfs
    simp only [fmtScan]
    refine ⟨?_, ?_, ?_⟩
    · intro hcov
      obtain ⟨t, ht⟩ := ihA hcov
      exact ⟨'{' :: t, by rw [ht]; rfl⟩
    · intro e he
      rcases h : fmtScan vars none rest with e' | t'
      · rw [h] at he; simp [Except.map] at he; exact he ▸ ihB e' h
      · rw [h] at he; simp [Except.map] at he
    · intro t ht
      rcases h : fmtScan vars none rest with e' | t'
      · rw [h] at ht; simp [Except.map] at ht
      · exact ihC t' h
  | case4 rest ih =>
    intro fs hfs
    simp only [fieldScan] at hfs
    obtain ⟨ihA, ihB, ihC⟩ := ih fs hfs
    simp only [fmtScan]
    refine ⟨?_, ?_, ?_⟩
    · intro hcov
      obtain ⟨t, ht⟩ := ihA hcov
      exact ⟨'}' :: t, by rw [ht]; rfl⟩
    · intro e he
      rcases h : fmtScan vars none rest with e' | t'
      · rw [h] at he; simp [Except.map] at he; exact he ▸ ihB e' h
      · rw [h] at he; simp [Except.map] at he
    · intro t ht
      rcases h : fmtScan vars none rest with e' | t'
      · rw [h] at ht; simp [Except.map] at ht
      · exact ihC t' h
  | case5 rest hne ih =>
    intro fs hfs
    rw [fieldScan_openBrace rest (fun r h => hne r h)] at hfs
    rw [fmtScan_openBrace vars rest (fun r h => hne r h)]
    exact ih fs hfs
  | case6 tail hne =>
    intro fs hfs
    rw [fieldScan_closeBrace tail (fun r h => hne r h)] at hfs
    exact absurd hfs (by simp)
  | case7 c rest h1 h2 h3 h4 ih =>
    intro fs hfs
    rw [fieldScan_char c rest (fun h => h3 h) (fun h => h4 h)] at hfs
    rw [fmtScan_char vars c rest (fun h => h3 h) (fun h => h4 h)]
    obtain ⟨ihA, ihB, ihC⟩ := ih fs hfs
    refine ⟨?_, ?_, ?_⟩
    · intro hcov
      obtain ⟨t, ht⟩ := ihA hcov
      exact ⟨c :: t, by rw [ht]; rfl⟩
    · intro e he
      rcases h : fmtScan vars none rest with e' | t'
      · rw [h] at he; simp [Except.map] at he; exact he ▸ ihB e' h
      · rw [h] at he; simp [Except.map] at he
    · intro t ht
      rcases h : fmtScan vars none rest with e' | t'
      · rw [h] at ht; simp [Except.map] at ht
      · exact ihC t' h
  | case8 acc rest hguard ih =>
    intro fs hfs
    simp only [fieldScan] at hfs
    rw [if_pos hguard] at hfs
    rcases hfs' : fieldScan none rest with _ | fs'
    · rw [hfs'] at hfs; simp at hfs
    · rw [hfs'] at hfs
      simp only [Option.map_some', Option.some.injEq] at hfs
      subst hfs
      obtain ⟨ihA, ihB, ihC⟩ := ih fs' hfs'
      simp only [Bool.and_eq_true, Bool.not_eq_true'] at hguard
      obtain ⟨⟨hg1, hg2⟩, hg3⟩ := hguard
      simp only [fmtScan]
      rw [fmtField_of_guard vars acc.reverse hg1 hg2 hg3]
      rcases hlk : List.lookup (String.mk acc.reverse) vars with _ | v
      · refine ⟨?_, ?_, ?_⟩
        · intro hcov
          exact absurd (hcov (String.mk acc.reverse) (List.mem_cons_self _ _)) (by rw [hlk]; simp)
        · intro e he
          simp only at he
          exact ⟨String.mk acc.reverse, List.mem_cons_self _ _, by injection he with h'; exact h'.symm, hlk⟩
        · intro t ht
          simp at ht
      · refine ⟨?_, ?_, ?_⟩
        · intro hcov
          obtain ⟨t, ht⟩ := ihA (fun k hk => hcov k (List.mem_cons_of_mem _ hk))
          exact ⟨v.data ++ t, by simp only; rw [ht]; rfl⟩
        · intro e he
          simp only at he
          rcases h : fmtScan vars none rest with e' | t'
          · rw [h] at he; simp [Except.map] at he
            obtain ⟨k, hk, hek, hlk'⟩ := ihB e' h
            exact ⟨k, List.mem_cons_of_mem _ hk, he ▸ hek, hlk'⟩
          · rw [h] at he; simp [Except.map] at he
        · intro t ht k hk
          rcases List.mem_cons.mp hk with hk | hk
          · subst hk; rw [hlk]; rfl
          · rcases h : fmtScan vars none rest with e' | t'
            · simp only at ht; rw [h] at ht; simp [Except.map] at ht
            · exact ihC t' h k hk
  | case9 acc rest hguard =>
    intro fs hfs
    simp only [fieldScan] at hfs
    rw [if_neg hguard] at hfs
    exact absurd hfs (by simp)
  | case10 acc c rest hne ih =>
    intro fs hfs
    rw [fieldScan_fieldChar acc c rest (fun h => hne h)] at hfs
    rw [fmtScan_fieldChar vars acc c rest (fun h => hne h)]
    exact ih fs hfs

theorem pyFormat_error_iff (s : String) (vars : List (String × String)) (e : PyErr) :
    pyFormat s vars = Except.error e ↔ fmtScan vars none s.data = Except.error e := by
  unfold pyFormat
  rcases h : fmtScan vars none s.data with e' | t <;> simp [Except.map]

theorem pyFormat_ok_iff (s : String) (vars : List (String × String)) :
    (∃ u, pyFormat s vars = Except.ok u) ↔ (∃ t, fmtScan vars none s.data = Except.ok t) := by
  unfold pyFormat
  rcases h : fmtScan vars none s.data with e' | t <;> simp [Except.map]

/-- `render` at the level of the placeholder analysis: when every turn's
content is a well-formed plain-named template, rendering (a) succeeds when
every placeholder of every turn is covered by `vars`, (b) can only fail with
a `KeyError` naming an uncovered variable, and (c) succeeds only when every
placeholder is covered. -/
theorem render_wellFormed (vars : List (String × String)) :
    ∀ msgs : List (String × String), (∀ m ∈ msgs, (placeholders m.2).isSome = true) →
      ((∀ m ∈ msgs, ∀ k ∈ (placeholders m.2).getD [], (List.lookup k vars).isSome = true) →
        ∃ out, render msgs vars = Except.ok out)
      ∧ (∀ e, render msgs vars = Except.error e →
          ∃ k, e = PyErr.keyError k ∧ List.lookup k vars = none)
      ∧ (∀ out, render msgs vars = Except.ok out →
          ∀ m ∈ msgs, ∀ k ∈ (placeholders m.2).getD [], (List.lookup k vars).isSome = true) := by
  intro msgs hwf
  induction msgs with
  | nil =>
    refine ⟨fun _ => ⟨[], rfl⟩, fun e he => by simp [render] at he, fun out _ m hm => by simp at hm⟩
  | cons m rest ih =>
    have hm := hwf m (List.mem_cons_self m rest)
    rcases hfs : placeholders m.2 with _ | fs
    · rw [hfs] at hm; simp at hm
    · have hfs' : fieldScan none m.2.data = some fs := hfs
      obtain ⟨A, B, C⟩ := fieldScan_fmtScan vars none m.2.data fs hfs'
      obtain ⟨ihA, ihB, ihC⟩ := ih (fun x hx => hwf x (List.mem_cons_of_mem m hx))
      refine ⟨?_, ?_, ?_⟩
      · intro hcov
        have hcovm : ∀ k ∈ fs, (List.lookup k vars).isSome = true := by
          intro k hk
          have := hcov m (List.mem_cons_self m rest)
          rw [hfs] at this
          exact this k hk
        obtain ⟨u, hu⟩ := (pyFormat_ok_iff m.2 vars).mpr (A hcovm)
        obtain ⟨out, hout⟩ := ihA (fun x hx => hcov x (List.mem_cons_of_mem m hx))
        refine ⟨(m.1, u) :: out, ?_⟩
        rw [render, hu, hout]
      · intro e he
        rw [render] at he
        rcases hp : pyFormat m.2 vars with e' | u
        · rw [hp] at he
          injection he with he'
          obtain ⟨k, hk, hek, hlk⟩ := B e' ((pyFormat_error_iff m.2 vars e').mp hp)
          exact ⟨k, he' ▸ hek, hlk⟩
        · rw [hp] at he
          rcases hr : render rest vars with e' | out
          · rw [hr] at he
            injection he with he'
            exact he' ▸ ihB e' hr
          · rw [hr] at he; simp at he
      · intro out hout x hx k hk
        rw [render] at hout
        rcases hp : pyFormat m.2 vars with e' | u
        · rw [hp] at hout; simp at hout
        · rw [hp] at hout
          rcases hr : render rest vars with e' | out'
          · rw [hr] at hout; simp at hout
          · rcases List.mem_cons.mp hx with hx' | hx'
            · subst hx'
              rw [hfs] at hk
              obtain ⟨t, ht⟩ := (pyFormat_ok_iff x.2 vars).mp ⟨u, hp⟩
              exact C t ht k hk
            · exact ihC out' hr x hx' k hk

theorem render_append (vars : List (String × String)) :
    ∀ xs ys : List (String × String),
    render (xs ++ ys) vars =
      match render xs vars with
      | Except.ok ox =>
        match render ys vars with
        | Except.ok oy => Except.ok (ox ++ oy)
        | Except.error e => Except.error e
      | Except.error e => Except.error e := by
  intro xs ys
  induction xs with
  | nil =>
    rcases hy : render ys vars with e | oy <;> simp [render, hy]
  | cons m rest ih =>
    rcases hp : pyFormat m.2 vars with e | c <;>
      rcases hr : render rest vars with e' | ox <;>
        rcases hy : render ys vars with e'' | oy <;>
          simp_all [List.cons_append, render, hp, hr, hy]

theorem pyFormat_question (q : String) :
    pyFormat "\x7bquestion\x7d" [("question", q)] = Except.ok q := by
  unfold pyFormat
  simp [fmtScan, fmtField, List.lookup, Except.map, strMk_data]

theorem render_question (q : String) :
    render [("user", "\x7bquestion\x7d")] [("question", q)] = Except.ok [("user", q)] := by
  rw [render, pyFormat_question]
  rfl

theorem formatHistory_error :
    ∀ items : List Json, (∃ it ∈ items, goodItem it = false) →
    ∃ e, formatHistory items = Except.error e := by
  intro items
  induction items with
  | nil => rintro ⟨it, hit, _⟩; cases hit
  | cons a rest ih =>
    rintro ⟨it, hit, hbad⟩
    rcases List.mem_cons.mp hit with h | h
    · subst h
      rcases hr : pySubscr it "role" with e | r
      · exact ⟨e, by rw [formatHistory, hr]⟩
      · rcases hc : pySubscr it "content" with e | c
        · exact ⟨e, by rw [formatHistory, hr, hc]⟩
        · exfalso; simp [goodItem, hr, hc, isOkE] at hbad
    · obtain ⟨e, he⟩ := ih ⟨it, h, hbad⟩
      rcases hr : pySubscr a "role" with e' | r
      · exact ⟨e', by rw [formatHistory, hr]⟩
      · rcases hc : pySubscr a "content" with e' | c
        · exact ⟨e', by rw [formatHistory, hr, hc]⟩
        · exact ⟨e, by rw [formatHistory, hr, hc, he]⟩

theorem ROUTES_eq_none (r : Int) (h : r < 1 ∨ 7 < r) : ROUTES r = none := by
  have h1 : r ≠ 1 := by omega
  have h2 : r ≠ 2 := by omega
  have h3 : r ≠ 3 := by omega
  have h4 : r ≠ 4 := by omega
  have h5 : r ≠ 5 := by omega
  have h6 : r ≠ 6 := by omega
  have h7 : r ≠ 7 := by omega
  simp [ROUTES, h1, h2, h3, h4, h5, h6, h7]

theorem countP_map_eq_zero {α β : Type} (f : α → β) (p : β → Bool)
    (h : ∀ a, p (f a) = false) : ∀ l : List α, (l.map f).countP p = 0 := by
  intro l
  induction l with
  | nil => rfl
  | cons a rest ih => simp [List.countP_cons, h, ih]

theorem countP_map_eq_length {α β : Type} (f : α → β) (p : β → Bool)
    (h : ∀ a, p (f a) = true) : ∀ l : List α, (l.map f).countP p = l.length := by
  intro l
  induction l with
  | nil => rfl
  | cons a rest ih => simp [List.countP_cons, h, ih]

/-! ## Claim theorems -/

/-- Claim C6, counterexample to the claim as stated: the turn content
`"\x7d"` contains no placeholder at all (so every placeholder is vacuously
covered), yet `render` fails — with the `ValueError` of a stray close
brace, not with a missing-variable error. -/
theorem c6_missing_variable_counterexample :
    render [("user", "\x7d")] [] = Except.error PyErr.valueError
    ∧ placeholders "\x7d" = none := by
  decide

/-- Claim C6 (amended): restricted to prompt sets whose turn contents are
well-formed templates made of plain named placeholders, `render` succeeds
iff every placeholder of every turn has a value in the mapping, and when it
fails, it fails precisely with a `KeyError` (the embedding's
`MissingVariable`) naming an unsupplied variable.  Templates with stray or
unbalanced braces fail with `ValueError` regardless of the mapping, which
is what the counterexample forces the claim to exclude. -/
theorem c6_missing_variable_amended (msgs vars : List (String × String))
    (hwf : ∀ m ∈ msgs, (placeholders m.2).isSome = true) :
    ((∃ out, render msgs vars = Except.ok out) ↔
      (∀ m ∈ msgs, ∀ k ∈ (placeholders m.2).getD [], (List.lookup k vars).isSome = true))
    ∧ (∀ e, render msgs vars = Except.error e →
        ∃ k, e = PyErr.keyError k ∧ List.lookup k vars = none) := by
  obtain ⟨A, B, C⟩ := render_wellFormed vars msgs hwf
  exact ⟨⟨fun h => C h.choose h.choose_spec, A⟩, B⟩

/-- Witness for the amended C6 at a concrete covered template. -/
theorem c6_missing_variable_witness :
    ((∃ out, render [("user", "\x7bq\x7d")] [("q", "v")] = Except.ok out) ↔
      (∀ m ∈ [(("user" : String), ("\x7bq\x7d" : String))],
        ∀ k ∈ (placeholders m.2).getD [], (List.lookup k [("q", "v")]).isSome = true))
    ∧ (∀ e, render [("user", "\x7bq\x7d")] [("q", "v")] = Except.error e →
        ∃ k, e = PyErr.keyError k ∧ List.lookup k [("q", "v")] = none) :=
  c6_missing_variable_amended [("user", "\x7bq\x7d")] [("q", "v")] (by decide)

/-- Claim C7: whenever `render` succeeds it returns a prompt set with the
same number of turns, in the same order, with the same roles (the input
itself is untouched: the embedding of the Python list comprehension is a
pure function building a fresh list). -/
theorem c7_render_preserves_structure (msgs vars : List (String × String)) :
    ∀ out, render msgs vars = Except.ok out →
      out.length = msgs.length ∧ out.map Prod.fst = msgs.map Prod.fst := by
  induction msgs with
  | nil =>
    intro out h
    rw [render] at h
    injection h with h'
    subst h'
    exact ⟨rfl, rfl⟩
  | cons m rest ih =>
    intro out h
    rw [render] at h
    rcases hp : pyFormat m.2 vars with e | c
    · rw [hp] at h; cases h
    · rw [hp] at h
      rcases hr : render rest vars with e | out'
      · rw [hr] at h; cases h
      · rw [hr] at h
        injection h with h'
        subst h'
        obtain ⟨hl, hmap⟩ := ih out' hr
        exact ⟨by simp [hl], by simp [hmap]⟩

/-- Witness for C7 at a concrete rendering. -/
theorem c7_render_preserves_structure_witness :
    ([("system", "hi"), ("user", "there")] : List (String × String)).length
        = ([("system", "hi"), ("user", "\x7bq\x7d")] : List (String × String)).length
    ∧ ([("system", "hi"), ("user", "there")] : List (String × String)).map Prod.fst
        = ([("system", "hi"), ("user", "\x7bq\x7d")] : List (String × String)).map Prod.fst :=
  c7_render_preserves_structure [("system", "hi"), ("user", "\x7bq\x7d")] [("q", "there")]
    [("system", "hi"), ("user", "there")] (by decide)

/-- Claim C8, counterexample to the claim as stated: the content
`"\x7b\x7b"` contains no placeholder (its analysis is `some []`), yet
rendering is not idempotent on it — the first pass rewrites the brace
escape to a bare `"\x7b"`, and a second pass over that output raises
`ValueError` instead of reproducing it. -/
theorem c8_idempotent_counterexample :
    placeholders "\x7b\x7b" = some []
    ∧ render [("user", "\x7b\x7b")] [] = Except.ok [("user", "\x7b")]
    ∧ render [("user", "\x7b")] [] = Except.error PyErr.valueError := by
  decide

/-- Claim C8 (amended): on prompt sets whose turn contents contain no brace
characters at all, `render` is the identity, hence rendering twice with the
same mapping equals rendering once. -/
theorem c8_idempotent_amended (ps vars : List (String × String))
    (h : ∀ m ∈ ps, noBraces m.2 = true) :
    render ps vars = Except.ok ps
    ∧ (render ps vars).bind (fun out => render out vars) = render ps vars := by
  have h1 := render_noBraces vars ps h
  refine ⟨h1, ?_⟩
  rw [h1]
  exact h1

/-- Witness for the amended C8 at a concrete brace-free prompt set. -/
theorem c8_idempotent_witness :
    render [("system", "hello")] [("q", "v")] = Except.ok [("system", "hello")]
    ∧ (render [("system", "hello")] [("q", "v")]).bind
        (fun out => render out [("q", "v")]) = render [("system", "hello")] [("q", "v")] :=
  c8_idempotent_amended [("system", "hello")] [("q", "v")] (by decide)

/-- Claim C2, counterexample to the claim as stated: history content is NOT
passed through verbatim — every turn, history included, goes through
`content.format(**input_data)`.  A history turn whose content is the
literal text `"\x7bquestion\x7d"` reaches the model as the current
question instead. -/
theorem c2_history_rendered_counterexample :
    Task4.online_help_desk_chat_messages "hi" [("user", "\x7bquestion\x7d")]
      = Except.ok [Task4.system_prompt, ("user", "hi"), ("user", "hi")]
    ∧ ("hi" : String) ≠ "\x7bquestion\x7d" := by
  constructor
  · rfl
  · decide

/-- Claim C2 (amended): the assembler submits exactly
`[system] ++ history ++ [user(question)]` in that order, but every turn —
history included — is rendered with the mapping `question ↦ question`;
history turns whose content contains no brace characters do pass through
character-for-character verbatim, and the final user turn carries the
question itself (never re-scanned).  This holds identically for
`Task4_chat.online_help_desk_chat` and `Task5_chat.chitchat`. -/
theorem c2_assembly_order_amended (q : String) (history : List (String × String))
    (h : ∀ p ∈ history, noBraces p.2 = true) :
    Task4.online_help_desk_chat_messages q history
        = Except.ok (Task4.system_prompt :: history ++ [("user", q)])
    ∧ Task5.chitchat_messages q history
        = Except.ok (Task5.system_prompt :: history ++ [("user", q)]) := by
  have hsys : noBraces Task4.system_prompt.2 = true := by decide
  have hsys5 : noBraces Task5.system_prompt.2 = true := by decide
  have hH : render history [("question", q)] = Except.ok history :=
    render_noBraces _ history h
  have hQ := render_question q
  constructor
  · unfold Task4.online_help_desk_chat_messages
    rw [List.cons_append, render, pyFormat_noBraces _ _ hsys, render_append, hH, hQ]
    rfl
  · unfold Task5.chitchat_messages
    rw [List.cons_append, render, pyFormat_noBraces _ _ hsys5, render_append, hH, hQ]
    rfl

/-- Witness for the amended C2 at a concrete brace-free history. -/
theorem c2_assembly_order_witness :
    Task4.online_help_desk_chat_messages "早安" [("user", "hello"), ("assistant", "hey")]
        = Except.ok (Task4.system_prompt
            :: [("user", "hello"), ("assistant", "hey")] ++ [("user", "早安")])
    ∧ Task5.chitchat_messages "早安" [("user", "hello"), ("assistant", "hey")]
        = Except.ok (Task5.system_prompt
            :: [("user", "hello"), ("assistant", "hey")] ++ [("user", "早安")]) :=
  c2_assembly_order_amended "早安" [("user", "hello"), ("assistant", "hey")] (by decide)

/-- Claim C3: the router does drain, concatenate and parse — but it applies
no range check, contradicting its own docstring ("Returns: int: A number
between 1–7").  When the classification model emits the single fragment
`"8"`, `input_router` returns 8, outside `[1,7]`; multi-fragment output is
concatenated before the parse. -/
theorem c3_router_out_of_range :
    input_router ["8"] = Except.ok 8
    ∧ ¬(1 ≤ (8 : Int) ∧ (8 : Int) ≤ 7)
    ∧ input_router ["4", "2"] = Except.ok 42
    ∧ input_router ["1", "", "2"] = Except.ok 12 := by
  decide

/-- Claim C4: for every intent code in `[1,7]` outside the deployment's
implemented set (Task3 implements only 5, Task5 only 7), dispatch yields
exactly the one fragment `"No response: <code> - <label>"` with the fixed
label of that code, and the run ends immediately (no further fragments, no
exception). -/
theorem c4_unimplemented_intent (route : Int) (rec chit : GenRun)
    (h1 : 1 ≤ route) (h2 : route ≤ 7) :
    (route ≠ 5 → ∃ label, ROUTES route = some label ∧
      Task3.dispatch route rec
        = (["No response: " ++ toString route ++ " - " ++ label], none)) ∧
    (route ≠ 7 → ∃ label, ROUTES route = some label ∧
      Task5.dispatch route chit
        = (["No response: " ++ toString route ++ " - " ++ label], none)) := by
  interval_cases route
  all_goals constructor
  all_goals intro hne
  all_goals first
    | exact absurd rfl hne
    | exact ⟨"Food Ordering", rfl, rfl⟩
    | exact ⟨"Product Query", rfl, rfl⟩
    | exact ⟨"Event Query", rfl, rfl⟩
    | exact ⟨"Shop Query", rfl, rfl⟩
    | exact ⟨"Product Recommendation", rfl, rfl⟩
    | exact ⟨"Corporate Information", rfl, rfl⟩
    | exact ⟨"Others", rfl, rfl⟩

/-- Witness for C4 at route 3 (unimplemented in both deployments). -/
theorem c4_unimplemented_intent_witness :
    ((3 : Int) ≠ 5 → ∃ label, ROUTES 3 = some label ∧
      Task3.dispatch 3 ([], none)
        = (["No response: " ++ toString (3 : Int) ++ " - " ++ label], none)) ∧
    ((3 : Int) ≠ 7 → ∃ label, ROUTES 3 = some label ∧
      Task5.dispatch 3 ([], none)
        = (["No response: " ++ toString (3 : Int) ++ " - " ++ label], none)) :=
  c4_unimplemented_intent 3 ([], none) ([], none) (by decide) (by decide)

/-- Claim C9: when the drained classifier output parses to an integer
outside `[1,7]`, both `online_help_desk_chat` variants take the rejection
branch, whose f-string evaluates `ROUTES[route]` before yielding — the
`KeyError` escapes with zero fragments yielded, instead of any
"No response" output. -/
theorem c9_out_of_range_route_raises (chunks : List String) (route : Int) (rec chit : GenRun)
    (hparse : input_router chunks = Except.ok route)
    (hout : route < 1 ∨ 7 < route) :
    Task3.online_help_desk_chat chunks rec = ([], some (PyErr.keyError (toString route)))
    ∧ Task5.online_help_desk_chat chunks chit = ([], some (PyErr.keyError (toString route))) := by
  have hR := ROUTES_eq_none route hout
  have h5 : route ≠ 5 := by omega
  have h7 : route ≠ 7 := by omega
  constructor
  · unfold Task3.online_help_desk_chat
    rw [hparse]
    show Task3.dispatch route rec = _
    unfold Task3.dispatch
    rw [if_pos h5, hR]
  · unfold Task5.online_help_desk_chat
    rw [hparse]
    show Task5.dispatch route chit = _
    unfold Task5.dispatch
    rw [if_pos h7, hR]

/-- Witness for C9: classifier output `"8"`. -/
theorem c9_out_of_range_route_raises_witness :
    Task3.online_help_desk_chat ["8"] ([], none)
        = ([], some (PyErr.keyError (toString (8 : Int))))
    ∧ Task5.online_help_desk_chat ["8"] ([], none)
        = ([], some (PyErr.keyError (toString (8 : Int)))) :=
  c9_out_of_range_route_raises ["8"] 8 ([], none) ([], none) (by decide) (by decide)

/-- Claim C1: after the stream is prepared, the transport writes exactly one
`data` event per fragment, with payload `\x7baction: "response", message:
fragment\x7d`, in production order; on a mid-stream failure after `k`
fragments it writes those `k` `data` events plus exactly one `error` event;
in both cases exactly one terminal `end` event follows, and it is always
the last event written. -/
theorem c1_sse_transport_events (frags : List String) (m : String) :
    streamingEvents (frags, none) = frags.map dataEvent ++ [endEvent]
    ∧ streamingEvents (frags, some m) = frags.map dataEvent ++ [errorEvent m, endEvent]
    ∧ (streamingEvents (frags, none)).getLast? = some endEvent
    ∧ (streamingEvents (frags, some m)).getLast? = some endEvent
    ∧ ((streamingEvents (frags, none)).countP fun e => e.event == "end") = 1
    ∧ ((streamingEvents (frags, some m)).countP fun e => e.event == "end") = 1
    ∧ ((streamingEvents (frags, none)).countP fun e => e.event == "data") = frags.length
    ∧ ((streamingEvents (frags, some m)).countP fun e => e.event == "data") = frags.length
    ∧ ((streamingEvents (frags, none)).countP fun e => e.event == "error") = 0
    ∧ ((streamingEvents (frags, some m)).countP fun e => e.event == "error") = 1 := by
  have hlast2 : ∀ (l : List SseEvent) (a b : SseEvent), (l ++ [a, b]).getLast? = some b := by
    intro l a b
    rw [show l ++ [a, b] = (l ++ [a]) ++ [b] by simp, List.getLast?_concat]
  refine ⟨rfl, rfl, List.getLast?_concat _, hlast2 _ _ _, ?_, ?_, ?_, ?_, ?_, ?_⟩
  · rw [show streamingEvents (frags, none) = frags.map dataEvent ++ [endEvent] from rfl,
      List.countP_append,
      countP_map_eq_zero dataEvent _ (fun _ => rfl) frags]
    rfl
  · rw [show streamingEvents (frags, some m) = frags.map dataEvent ++ [errorEvent m, endEvent] from rfl,
      List.countP_append,
      countP_map_eq_zero dataEvent _ (fun _ => rfl) frags]
    rfl
  · rw [show streamingEvents (frags, none) = frags.map dataEvent ++ [endEvent] from rfl,
      List.countP_append,
      countP_map_eq_length dataEvent _ (fun _ => rfl) frags]
    rfl
  · rw [show streamingEvents (frags, some m) = frags.map dataEvent ++ [errorEvent m, endEvent] from rfl,
      List.countP_append,
      countP_map_eq_length dataEvent _ (fun _ => rfl) frags]
    rfl
  · rw [show streamingEvents (frags, none) = frags.map dataEvent ++ [endEvent] from rfl,
      List.countP_append,
      countP_map_eq_zero dataEvent _ (fun _ => rfl) frags]
    rfl
  · rw [show streamingEvents (frags, some m) = frags.map dataEvent ++ [errorEvent m, endEvent] from rfl,
      List.countP_append,
      countP_map_eq_zero dataEvent _ (fun _ => rfl) frags]
    rfl

/-- Claim C5: a request whose body is not parseable as JSON fails before
any streaming commitment: HTTP 500, `Content-Type: application/json`, body
`\x7b"error": <message>\x7d`, and zero SSE frames on the connection. -/
theorem c5_malformed_body_prestream_error (e : PyErr) (gen : List String × Option String) :
    chat_handler (Except.error e) gen
        = HandlerResult.jsonError 500 "application/json"
            (Json.obj [("error", Json.str (errMsg e))])
    ∧ sseEventsOf (chat_handler (Except.error e) gen) = [] :=
  ⟨rfl, rfl⟩

/-- Claim C10: a JSON body whose `history` contains an entry that is not a
mapping with both `"role"` and `"content"` fails pre-stream — HTTP 500 with
a JSON error body and zero SSE frames — while a body missing `query` and
`history` entirely (the empty object) proceeds to streaming thanks to the
defaults `""` and `[]`. -/
theorem c10_bad_history_entry (fs : List (String × Json)) (items : List Json)
    (gen : List String × Option String)
    (hh : List.lookup "history" fs = some (Json.arr items))
    (hbad : ∃ it ∈ items, goodItem it = false) :
    (∃ e, chat_handler (Except.ok (Json.obj fs)) gen
        = HandlerResult.jsonError 500 "application/json"
            (Json.obj [("error", Json.str (errMsg e))]))
    ∧ sseEventsOf (chat_handler (Except.ok (Json.obj fs)) gen) = []
    ∧ chat_handler (Except.ok (Json.obj [])) gen
        = HandlerResult.sse 200 "text/event-stream" (streamingEvents gen) := by
  obtain ⟨e, he⟩ := formatHistory_error items hbad
  have hmain : chat_handler (Except.ok (Json.obj fs)) gen
      = HandlerResult.jsonError 500 "application/json"
          (Json.obj [("error", Json.str (errMsg e))]) := by
    simp only [chat_handler, pyGet, hh, Option.getD, pyIter, he]
  exact ⟨⟨e, hmain⟩, by rw [hmain]; rfl, rfl⟩

/-- Witness for C10: history `[\x7b"role": "user"\x7d]` (missing
`"content"`). -/
theorem c10_bad_history_entry_witness :
    (∃ e, chat_handler
        (Except.ok (Json.obj [("history", Json.arr [Json.obj [("role", Json.str "user")]])]))
        ([], none)
        = HandlerResult.jsonError 500 "application/json"
            (Json.obj [("error", Json.str (errMsg e))]))
    ∧ sseEventsOf (chat_handler
        (Except.ok (Json.obj [("history", Json.arr [Json.obj [("role", Json.str "user")]])]))
        ([], none)) = []
    ∧ chat_handler (Except.ok (Json.obj [])) ([], none)
        = HandlerResult.sse 200 "text/event-stream" (streamingEvents ([], none)) :=
  c10_bad_history_entry [("history", Json.arr [Json.obj [("role", Json.str "user")]])]
    [Json.obj [("role", Json.str "user")]] ([], none) rfl
    ⟨Json.obj [("role", Json.str "user")], List.mem_singleton.mpr rfl, by decide⟩

